import Mathlib

/-!
Verification of the near-Earth-objects ingestion / serialization pipeline
(`models.py`, `extract.py`, `write.py`) against its specification.

The Python sources are embedded shallowly: rows and documents are explicit
data, Python floats are exact decimals (every float in this program is parsed
from a decimal literal and only ever printed back, never computed with), and
fallible code returns `Except PyErr`.
-/

/-- The Python exception kinds this code base can raise. -/
inductive PyErr : Type where
  | keyError : PyErr
  | valueError : PyErr
  | attributeError : PyErr
  | typeError : PyErr
deriving DecidableEq

/-- A Python float as it occurs in this program: the not-a-number sentinel
from `float('nan')`, a signed infinity, or a finite decimal value `m / 10^e`.
The program parses floats from decimal text and prints them back without any
arithmetic in between, so exact decimals model them faithfully. -/
inductive FloatVal : Type where
  | nan : FloatVal
  | inf (neg : Bool) : FloatVal
  | dec (m : Int) (e : Nat) : FloatVal
deriving DecidableEq

/-- Python `==` on floats: `nan` compares unequal to everything, itself
included; finite decimals compare by value (cross-multiplied), infinities by
sign. -/
def pyFloatEq : FloatVal → FloatVal → Bool
  | .dec m1 e1, .dec m2 e2 => m1 * (10 : Int) ^ e2 == m2 * (10 : Int) ^ e1
  | .inf b1, .inf b2 => b1 == b2
  | _, _ => false

/-- The ASCII digit character for a digit value. -/
def digitChar (d : Nat) : Char := Char.ofNat (48 + d)

/-- The digit value of an ASCII digit character. -/
def digitVal (c : Char) : Nat := c.toNat - 48

/-- Whether a character is an ASCII decimal digit. -/
def isDigit (c : Char) : Bool := 48 ≤ c.toNat && c.toNat ≤ 57

/-- Lower-cases an ASCII letter, leaving every other character alone. -/
def lowerAscii (c : Char) : Char :=
  if 65 ≤ c.toNat ∧ c.toNat ≤ 90 then Char.ofNat (c.toNat + 32) else c

/-- Drops leading spaces. -/
def skipSpaces : List Char → List Char
  | ' ' :: cs => skipSpaces cs
  | cs => cs

/-- Drops leading and trailing spaces, as `float(str)` tolerates. -/
def trimSpaces (cs : List Char) : List Char :=
  (skipSpaces (skipSpaces cs).reverse).reverse

/-- Splits a character list into its maximal leading run of digits (as digit
values) and the rest. -/
def takeDigits : List Char → List Nat × List Char
  | [] => ([], [])
  | c :: cs =>
    if isDigit c then
      let p := takeDigits cs
      (digitVal c :: p.1, p.2)
    else ([], c :: cs)

/-- The number whose decimal digits, most significant first, are given. -/
def digitsToNat (ds : List Nat) : Nat := ds.foldl (fun a d => 10 * a + d) 0

/-- The exponent suffix of a float literal (after the `e`): an optional sign
and at least one digit, consuming the whole remainder.  A positive exponent
scales the mantissa up; a negative one deepens the decimal point. -/
def parseExpPart (m : Int) (e0 : Nat) (cs : List Char) : Option FloatVal :=
  let p : Bool × List Char :=
    match cs with
    | '-' :: r => (true, r)
    | '+' :: r => (false, r)
    | r => (false, r)
  let q := takeDigits p.2
  if q.1.isEmpty ∨ ¬ q.2.isEmpty then none
  else
    let x := digitsToNat q.1
    if p.1 then some (.dec m (e0 + x)) else some (.dec (m * (10 : Int) ^ x) e0)

/-- The body of a float literal after the optional sign: one of the special
words nan / inf / infinity (any letter case), or digits with an optional
fractional part and an optional exponent.  At least one digit must be present
somewhere, as in Python. -/
def pyFloatBody (neg : Bool) (cs : List Char) : Option FloatVal :=
  let low := cs.map lowerAscii
  if low == ['n', 'a', 'n'] then some .nan
  else if low == ['i', 'n', 'f'] ∨ low == ['i', 'n', 'f', 'i', 'n', 'i', 't', 'y'] then
    some (.inf neg)
  else
    let p1 := takeDigits cs
    let p2 : List Nat × List Char :=
      match p1.2 with
      | '.' :: r => takeDigits r
      | r => ([], r)
    if p1.1.isEmpty ∧ p2.1.isEmpty then none
    else
      let m : Int := (if neg then -1 else 1) * (digitsToNat (p1.1 ++ p2.1) : Int)
      let e0 := p2.1.length
      match p2.2 with
      | [] => some (.dec m e0)
      | 'e' :: r => parseExpPart m e0 r
      | 'E' :: r => parseExpPart m e0 r
      | _ => none

/-- Embeds the Python builtin `float(str)` on the textual forms it accepts:
optional surrounding spaces, an optional sign, then either a decimal number
or one of the special words nan / inf / infinity.  (Digit-grouping
underscores, which none of the data sets use, are not modelled.)  Returns
`none` where Python raises `ValueError`. -/
def pyFloatOfChars (cs : List Char) : Option FloatVal :=
  match trimSpaces cs with
  | '-' :: r => pyFloatBody true r
  | '+' :: r => pyFloatBody false r
  | r => pyFloatBody false r

/-- `float(s)` on a Lean string. -/
def pyFloat (s : String) : Option FloatVal := pyFloatOfChars s.data

/-- The decimal digit characters of a number, most significant first, via a
fuel argument that makes the recursion structural. -/
def natDigitsAux : Nat → Nat → List Char → List Char
  | 0, _, acc => acc
  | fuel + 1, n, acc =>
    if n < 10 then digitChar n :: acc
    else natDigitsAux fuel (n / 10) (digitChar (n % 10) :: acc)

/-- The decimal digit characters of a number. -/
def natChars (n : Nat) : List Char := natDigitsAux (n + 1) n []

/-- The decimal string of a number. -/
def natToStr (n : Nat) : String := String.mk (natChars n)

/-- Left-pads a digit list with zeros to the given width. -/
def padZeros (w : Nat) (ds : List Char) : List Char :=
  List.replicate (w - ds.length) '0' ++ ds

/-- Cancels trailing decimal zeros of a mantissa/exponent pair: while the
exponent is positive and the mantissa ends in 0, divide both out.  The fuel
is the starting exponent, which bounds the number of steps. -/
def stripZeros : Nat → Int → Nat → Int × Nat
  | 0, m, e => (m, e)
  | fuel + 1, m, e =>
    if e = 0 then (m, e)
    else if m % 10 == 0 then stripZeros fuel (m / 10) (e - 1)
    else (m, e)

/-- Embeds Python `str(x)` on the float values this program prints: the
shortest decimal rendering for finite values (all of the program's values lie
in the range where Python uses plain positional notation), a trailing `.0`
for integral values, and the words nan / inf / -inf for the specials. -/
def pyFloatStr : FloatVal → String
  | .nan => "nan"
  | .inf b => if b then "-inf" else "inf"
  | .dec m e =>
    let p := stripZeros e m e
    let sign := if p.1 < 0 then "-" else ""
    let a := p.1.natAbs
    if p.2 = 0 then sign ++ natToStr a ++ ".0"
    else
      sign ++ natToStr (a / 10 ^ p.2) ++ "." ++
        String.mk (padZeros p.2 (natChars (a % 10 ^ p.2)))

/-- A calendar date-time with minute precision, the in-memory form produced
by the calendar-parsing rule (seconds carry no information in this data set
and are dropped at the parse). -/
structure DateTime where
  year : Nat
  month : Nat
  day : Nat
  hour : Nat
  minute : Nat
deriving DecidableEq

/-- The English three-letter month abbreviations used by the compact calendar
layout, independent of locale. -/
def monthAbbrev : Nat → List Char
  | 1 => ['J', 'a', 'n']
  | 2 => ['F', 'e', 'b']
  | 3 => ['M', 'a', 'r']
  | 4 => ['A', 'p', 'r']
  | 5 => ['M', 'a', 'y']
  | 6 => ['J', 'u', 'n']
  | 7 => ['J', 'u', 'l']
  | 8 => ['A', 'u', 'g']
  | 9 => ['S', 'e', 'p']
  | 10 => ['O', 'c', 't']
  | 11 => ['N', 'o', 'v']
  | 12 => ['D', 'e', 'c']
  | _ => ['X', 'x', 'x']

/-- The month number of a three-letter abbreviation, if any. -/
def monthOfAbbrev : List Char → Option Nat
  | ['J', 'a', 'n'] => some 1
  | ['F', 'e', 'b'] => some 2
  | ['M', 'a', 'r'] => some 3
  | ['A', 'p', 'r'] => some 4
  | ['M', 'a', 'y'] => some 5
  | ['J', 'u', 'n'] => some 6
  | ['J', 'u', 'l'] => some 7
  | ['A', 'u', 'g'] => some 8
  | ['S', 'e', 'p'] => some 9
  | ['O', 'c', 't'] => some 10
  | ['N', 'o', 'v'] => some 11
  | ['D', 'e', 'c'] => some 12
  | _ => none

/-- A number zero-padded to two digit characters. -/
def pad2 (n : Nat) : List Char := [digitChar (n / 10 % 10), digitChar (n % 10)]

/-- A number zero-padded to four digit characters. -/
def pad4 (n : Nat) : List Char :=
  [digitChar (n / 1000 % 10), digitChar (n / 100 % 10),
   digitChar (n / 10 % 10), digitChar (n % 10)]

/-- The character form of the compact calendar layout YYYY-Mon-DD HH:MM. -/
def dtChars (dt : DateTime) : List Char :=
  pad4 dt.year ++ '-' :: monthAbbrev dt.month ++ '-' :: pad2 dt.day ++
    ' ' :: pad2 dt.hour ++ ':' :: pad2 dt.minute

/-- Modelled from the spec: `datetime_to_str` of the helpers module (whose
source is not part of the given files) renders an in-memory date-time back to
the compact minute-precision layout YYYY-Mon-DD HH:MM, with English month
abbreviations independent of locale. -/
def datetime_to_str (dt : DateTime) : String := String.mk (dtChars dt)

/-- Two digit characters as a number, when both are digits. -/
def parse2 (a b : Char) : Option Nat :=
  if isDigit a && isDigit b then some (10 * digitVal a + digitVal b) else none

/-- Four digit characters as a number, when all four are digits. -/
def parse4 (a b c d : Char) : Option Nat :=
  if isDigit a && isDigit b && isDigit c && isDigit d then
    some (1000 * digitVal a + 100 * digitVal b + 10 * digitVal c + digitVal d)
  else none

/-- The tolerated tail of the calendar string: nothing, or an ignored
seconds component `:SS`. -/
def secondsPartOk : List Char → Bool
  | [] => true
  | [':', a, b] => isDigit a && isDigit b
  | _ => false

/-- The calendar-parsing rule on a character list: the fixed compact layout
YYYY-Mon-DD HH:MM with an optional, ignored trailing seconds component; any
other shape is the ValueError that strptime raises. -/
def cdParseChars : List Char → Except PyErr DateTime
  | y1 :: y2 :: y3 :: y4 :: '-' :: a :: b :: c :: '-' :: d1 :: d2 :: ' ' ::
      h1 :: h2 :: ':' :: n1 :: n2 :: rest =>
    if secondsPartOk rest then
      match parse4 y1 y2 y3 y4, monthOfAbbrev [a, b, c], parse2 d1 d2,
          parse2 h1 h2, parse2 n1 n2 with
      | some y, some mo, some d, some h, some n => .ok ⟨y, mo, d, h, n⟩
      | _, _, _, _, _ => .error .valueError
    else .error .valueError
  | _ => .error .valueError

/-- Modelled from the spec: `cd_to_datetime` of the helpers module (whose
source is not part of the given files) parses the compact source date-time
format YYYY-Mon-DD HH:MM, tolerating and ignoring a trailing seconds
component, into an in-memory date-time with minute precision. -/
def cd_to_datetime (s : String) : Except PyErr DateTime := cdParseChars s.data


mutual
/-- `NearEarthObject` of models.py: primary designation, optional name
(`none` embeds Python None), diameter (`none` embeds Python None; the value
the loader stores is always a float, possibly the nan sentinel), the
hazardous flag, and the approaches list, empty at construction.  The excess
keyword side-channel is not modelled: `load_neos` always passes exactly the
four named attributes. -/
inductive NearEarthObject : Type where
  | mk (designation : String) (name : Option String) (diameter : Option FloatVal)
      (hazardous : Bool) (approaches : List CloseApproach) : NearEarthObject
/-- `CloseApproach` of models.py: the parsed approach time, distance,
velocity, the private foreign-key designation (attribute `_designation` in
the source) and the optional reference to the linked NEO. -/
inductive CloseApproach : Type where
  | mk (time : DateTime) (distance : FloatVal) (velocity : FloatVal)
      (designation : Option String) (neo : Option NearEarthObject) : CloseApproach
end

/-- Attribute `designation`. -/
def NearEarthObject.designation : NearEarthObject → String
  | .mk d _ _ _ _ => d

/-- Attribute `name`. -/
def NearEarthObject.name : NearEarthObject → Option String
  | .mk _ n _ _ _ => n

/-- Attribute `diameter`. -/
def NearEarthObject.diameter : NearEarthObject → Option FloatVal
  | .mk _ _ dm _ _ => dm

/-- Attribute `hazardous`. -/
def NearEarthObject.hazardous : NearEarthObject → Bool
  | .mk _ _ _ hz _ => hz

/-- Attribute `approaches`. -/
def NearEarthObject.approaches : NearEarthObject → List CloseApproach
  | .mk _ _ _ _ aps => aps

/-- Attribute `time`. -/
def CloseApproach.time : CloseApproach → DateTime
  | .mk t _ _ _ _ => t

/-- Attribute `distance`. -/
def CloseApproach.distance : CloseApproach → FloatVal
  | .mk _ d _ _ _ => d

/-- Attribute `velocity`. -/
def CloseApproach.velocity : CloseApproach → FloatVal
  | .mk _ _ v _ _ => v

/-- Attribute `_designation`, the foreign key kept until linking. -/
def CloseApproach.designation : CloseApproach → Option String
  | .mk _ _ _ des _ => des

/-- Attribute `neo`. -/
def CloseApproach.neo : CloseApproach → Option NearEarthObject
  | .mk _ _ _ _ n => n

/-- Embeds `CloseApproach.__init__`: stores the foreign-key designation,
converts the raw time string with the calendar-parsing rule (propagating the
ValueError of an unparseable string), and stores distance, velocity and the
optional neo reference. -/
def CloseApproach.make (time : String) (distance velocity : FloatVal)
    (designation : Option String) (neo : Option NearEarthObject) :
    Except PyErr CloseApproach :=
  match cd_to_datetime time with
  | .ok t => .ok (.mk t distance velocity designation neo)
  | .error e => .error e

/-- Embeds the `CloseApproach.time_str` property: the stored time rendered by
`datetime_to_str`. -/
def CloseApproach.time_str (ca : CloseApproach) : String := datetime_to_str ca.time

/-- The string the `fullname` property getter tries to store before
returning: `self.designation + '_' + self.name`.  When name is Python None
the string concatenation itself raises TypeError. -/
def fullnameValue (neo : NearEarthObject) : Except PyErr String :=
  match neo.name with
  | none => .error .typeError
  | some n => .ok (neo.designation ++ "_" ++ n)

/-- Embeds the `NearEarthObject.fullname` property.  Its getter executes
`self.fullname = self.designation + '_' + self.name` and then returns
`self.fullname`; because `fullname` is a property without a setter, the
assignment raises AttributeError in Python after the right-hand side has been
evaluated, so the getter never returns normally. -/
def NearEarthObject.fullname (neo : NearEarthObject) : Except PyErr String :=
  match fullnameValue neo with
  | .ok _ => .error .attributeError
  | .error e => .error e

/-- Left-to-right traversal of a list by a fallible step, stopping at the
first error, as a Python for-loop or comprehension does. -/
def mapE {α β : Type} (f : α → Except PyErr β) : List α → Except PyErr (List β)
  | [] => .ok []
  | x :: xs =>
    match f x with
    | .ok y =>
      match mapE f xs with
      | .ok ys => .ok (y :: ys)
      | .error e => .error e
    | .error e => .error e

/-- One data row of the NEO CSV as csv.DictReader hands it to `load_neos`:
the four columns the loader reads, each a raw string.  (The reader maps every
header column to a string; the loader touches only these four.) -/
structure NeoRow where
  pdes : String
  name : String
  diameter : String
  pha : String

/-- The per-row work of `load_neos`: the hazardous flag becomes the test
`pha == "Y"`, a blank name becomes None, a blank diameter becomes the float
nan sentinel, and the constructor receives `float(diameter)` — which, for a
non-blank field, raises ValueError on unparseable text.  The source performs
the normalization in a first loop and the construction in a comprehension;
both act row-by-row on disjoint data, so their composition per row is the
same function. -/
def loadNeoRow (row : NeoRow) : Except PyErr NearEarthObject :=
  let pha : Bool := row.pha == "Y"
  let nm : Option String := if row.name == "" then none else some row.name
  match (if row.diameter == "" then some FloatVal.nan else pyFloat row.diameter) with
  | some d => .ok (.mk row.pdes nm (some d) pha [])
  | none => .error .valueError

/-- Embeds `load_neos`: one NearEarthObject per data row, in file order. -/
def load_neos (rows : List NeoRow) : Except PyErr (List NearEarthObject) :=
  mapE loadNeoRow rows

/-- The close-approach JSON document as load_approaches reads it: the two
top-level keys it subscripts, each possibly missing (a missing key is a
Python KeyError), with the data rows as lists of raw strings. -/
structure CadDoc where
  fields : Option (List String)
  data : Option (List (List String))

/-- Key lookup in the record built by `dict(zip(fields, row))`: Python dicts
keep the last value bound to a duplicated key, so the search runs from the
right; a missing key is a KeyError. -/
def dictGet (ps : List (String × String)) (k : String) : Except PyErr String :=
  match ps.reverse.find? (fun p => p.1 == k) with
  | some p => .ok p.2
  | none => .error .keyError

/-- `float(s)` as an expression that raises ValueError on unparseable text. -/
def pyFloatE (s : String) : Except PyErr FloatVal :=
  match pyFloat s with
  | some f => .ok f
  | none => .error .valueError

/-- The per-record work of `load_approaches`: the constructor-argument
expressions evaluate left to right — `ca['cd']`, `float(ca['dist'])`,
`float(ca['v_rel'])`, `ca['des']` — and then `CloseApproach` is constructed
with `neo=None`. -/
def loadCaRec (rec : List (String × String)) : Except PyErr CloseApproach := do
  let cd ← dictGet rec "cd"
  let distS ← dictGet rec "dist"
  let dist ← pyFloatE distS
  let vS ← dictGet rec "v_rel"
  let v ← pyFloatE vS
  let des ← dictGet rec "des"
  CloseApproach.make cd dist v (some des) none

/-- Embeds `load_approaches`: subscripts the `fields` and `data` keys, zips
the field list against each data row (zip stops at the shorter of the two),
and builds one CloseApproach per record, in file order. -/
def load_approaches (doc : CadDoc) : Except PyErr (List CloseApproach) := do
  let fields ← match doc.fields with
    | some fs => Except.ok fs
    | none => Except.error PyErr.keyError
  let rows ← match doc.data with
    | some d => Except.ok d
    | none => Except.error PyErr.keyError
  mapE loadCaRec (rows.map (fun ca => fields.zip ca))

/-- Whether csv.writer must quote a field (default QUOTE_MINIMAL rules). -/
def csvNeedsQuote (s : String) : Bool :=
  s.data.any (fun c => c == ',' || c == '"' || c == '\n' || c == '\r')

/-- Doubles the quote characters of a quoted csv field. -/
def csvEscape (s : String) : String :=
  String.mk (s.data.flatMap (fun c => if c == '"' then ['"', '"'] else [c]))

/-- A csv cell as csv.writer renders it. -/
def csvField (s : String) : String :=
  if csvNeedsQuote s then "\"" ++ csvEscape s ++ "\"" else s

/-- One csv line (without the line terminator): the cells, quoted when
needed, joined by commas. -/
def csvLine (cells : List String) : String :=
  String.intercalate "," (cells.map csvField)

/-- The fixed header of the tabular output. -/
def fieldnames : List String :=
  ["datetime_utc", "distance_au", "velocity_km_s", "designation", "name",
   "diameter_km", "potentially_hazardous"]

/-- The diameter cell of a tabular row: the source writes the empty string
when the stored diameter is Python None and otherwise lets csv.writer render
the float with `str`. -/
def csvDiameterCell : Option FloatVal → String
  | none => ""
  | some f => pyFloatStr f

/-- The loop body of `write_to_csv` for one approach: reads the approach's
attributes and those of its linked NEO (attribute access on a None `neo`
raises AttributeError, as in Python) and builds the seven cells in order.
The approach is returned alongside its row exactly as the loop leaves it, so
the theorems can state that the pass mutates nothing. -/
def csvRowOf (ca : CloseApproach) : Except PyErr (CloseApproach × List String) :=
  match ca.neo with
  | none => .error .attributeError
  | some neo =>
    .ok (ca,
      [datetime_to_str ca.time,
       pyFloatStr ca.distance,
       pyFloatStr ca.velocity,
       neo.designation,
       (match neo.name with
        | none => ""
        | some n => n),
       csvDiameterCell neo.diameter,
       if neo.hazardous then "True" else "False"])

/-- Embeds `write_to_csv`: the header line, then one line per approach of the
`results` stream, in order.  The second component is the sequence of entities
exactly as the single pass over `results` leaves them. -/
def write_to_csv (results : List CloseApproach) :
    Except PyErr (List String × List CloseApproach) :=
  match mapE csvRowOf results with
  | .ok steps =>
    .ok (csvLine fieldnames :: steps.map (fun p => csvLine p.2), steps.map Prod.fst)
  | .error e => .error e

/-- A JSON scalar as this program writes it: a string or a float. -/
inductive JVal : Type where
  | str (s : String) : JVal
  | num (f : FloatVal) : JVal
deriving DecidableEq

/-- The nested neo sub-record of one structured output record. -/
structure JsonNeoRec where
  designation : String
  name : String
  diameter_km : JVal
  potentially_hazardous : Bool
deriving DecidableEq

/-- One structured output record of `write_to_json`. -/
structure JsonCaRec where
  datetime_utc : String
  distance_au : FloatVal
  velocity_km_s : FloatVal
  neo : JsonNeoRec
deriving DecidableEq

/-- The diameter entry of the structured record: the source writes the string
'NaN' when the stored diameter is Python None and the float itself
otherwise. -/
def jsonDiameterVal : Option FloatVal → JVal
  | none => .str "NaN"
  | some f => .num f

/-- The loop body of `write_to_json` for one approach.  Note the source sets
potentially_hazardous with `False if ca.neo.hazardous else True`.  As with
the csv body, the approach is returned exactly as the loop leaves it. -/
def jsonRecOf (ca : CloseApproach) : Except PyErr (CloseApproach × JsonCaRec) :=
  match ca.neo with
  | none => .error .attributeError
  | some neo =>
    .ok (ca,
      ⟨datetime_to_str ca.time,
       ca.distance,
       ca.velocity,
       ⟨neo.designation,
        (match neo.name with
         | none => ""
         | some n => n),
        jsonDiameterVal neo.diameter,
        if neo.hazardous then false else true⟩⟩)

/-- Embeds `write_to_json`: one record per approach of the `results` stream,
in order (the textual json.dump rendering is not modelled; the claims are
about the records' contents).  The second component is the sequence of
entities exactly as the single pass over `results` leaves them. -/
def write_to_json (results : List CloseApproach) :
    Except PyErr (List JsonCaRec × List CloseApproach) :=
  match mapE jsonRecOf results with
  | .ok steps => .ok (steps.map (fun p => p.2), steps.map Prod.fst)
  | .error e => .error e

/-- The NEO of the spec's worked example: designation 433, name Eros,
diameter 16.84, not hazardous. -/
def erosNeo : NearEarthObject :=
  .mk "433" (some "Eros") (some (.dec 1684 2)) false []

/-- The linked close approach of the spec's worked example: 1900-Dec-27 01:30
at distance 0.0924 au and velocity 5.57 km/s. -/
def erosApproach : CloseApproach :=
  .mk ⟨1900, 12, 27, 1, 30⟩ (.dec 924 4) (.dec 557 2) (some "433") (some erosNeo)

/-- A row whose pha field is the marker character. -/
def markedRow : NeoRow := ⟨"433", "Eros", "", "Y"⟩

/-- A row with blank name and blank diameter. -/
def blankRow : NeoRow := ⟨"2020 AB", "", "", ""⟩

/-- A row whose diameter field is non-empty but not a number. -/
def badDiamRow : NeoRow := ⟨"2020 AB", "", "not a number", "N"⟩

/-- The worked-example row with a non-blank diameter. -/
def erosRow : NeoRow := ⟨"433", "Eros", "16.84", "N"⟩

/-- A close-approach document whose only data row is one entry shorter than
its five-name field list but still covers every required field. -/
def mismatchDoc : CadDoc :=
  ⟨some ["des", "cd", "dist", "v_rel", "h"],
   some [["433", "1900-Dec-27 01:30", "0.0924", "5.57"]]⟩

/-- A close-approach document whose only data row is so short that zip drops
the required cd field. -/
def truncatedDoc : CadDoc :=
  ⟨some ["des", "cd", "dist", "v_rel"], some [["433"]]⟩

theorem digitVal_digitChar (d : Nat) (h : d < 10) : digitVal (digitChar d) = d := by
  interval_cases d <;> rfl

theorem isDigit_digitChar (d : Nat) (h : d < 10) : isDigit (digitChar d) = true := by
  interval_cases d <;> rfl

theorem parse2_pad2 (n : Nat) (h : n < 100) :
    parse2 (digitChar (n / 10 % 10)) (digitChar (n % 10)) = some n := by
  have h1 := isDigit_digitChar (n / 10 % 10) (by omega)
  have h2 := isDigit_digitChar (n % 10) (by omega)
  have v1 := digitVal_digitChar (n / 10 % 10) (by omega)
  have v2 := digitVal_digitChar (n % 10) (by omega)
  simp only [parse2, h1, h2, v1, v2, Bool.and_self, if_true, Option.some.injEq]
  omega

theorem parse4_pad4 (n : Nat) (h : n < 10000) :
    parse4 (digitChar (n / 1000 % 10)) (digitChar (n / 100 % 10))
      (digitChar (n / 10 % 10)) (digitChar (n % 10)) = some n := by
  have h1 := isDigit_digitChar (n / 1000 % 10) (by omega)
  have h2 := isDigit_digitChar (n / 100 % 10) (by omega)
  have h3 := isDigit_digitChar (n / 10 % 10) (by omega)
  have h4 := isDigit_digitChar (n % 10) (by omega)
  have v1 := digitVal_digitChar (n / 1000 % 10) (by omega)
  have v2 := digitVal_digitChar (n / 100 % 10) (by omega)
  have v3 := digitVal_digitChar (n / 10 % 10) (by omega)
  have v4 := digitVal_digitChar (n % 10) (by omega)
  simp only [parse4, h1, h2, h3, h4, v1, v2, v3, v4, Bool.and_self, if_true,
    Option.some.injEq]
  omega

theorem monthOfAbbrev_monthAbbrev (mo : Nat) (h1 : 1 ≤ mo) (h2 : mo ≤ 12) :
    monthOfAbbrev (monthAbbrev mo) = some mo := by
  interval_cases mo <;> rfl

theorem cdParseChars_shape (c1 c2 c3 c4 a b c e1 e2 f1 f2 g1 g2 : Char) :
    cdParseChars (c1 :: c2 :: c3 :: c4 :: '-' :: a :: b :: c :: '-' :: e1 :: e2 ::
        ' ' :: f1 :: f2 :: ':' :: g1 :: g2 :: []) =
      (match parse4 c1 c2 c3 c4, monthOfAbbrev [a, b, c], parse2 e1 e2,
          parse2 f1 f2, parse2 g1 g2 with
       | some y, some mo, some d, some h, some n => .ok ⟨y, mo, d, h, n⟩
       | _, _, _, _, _ => .error .valueError) := rfl

theorem cdParseChars_format (y d h n : Nat) (a b c : Char) (hy : y < 10000)
    (hd : d < 100) (hh : h < 100) (hn : n < 100) :
    cdParseChars (pad4 y ++ '-' :: [a, b, c] ++ '-' :: pad2 d ++ ' ' :: pad2 h ++
        ':' :: pad2 n) =
      (match monthOfAbbrev [a, b, c] with
       | some mo => .ok ⟨y, mo, d, h, n⟩
       | none => .error .valueError) := by
  have p4 := parse4_pad4 y hy
  have pd := parse2_pad2 d hd
  have ph := parse2_pad2 h hh
  have pn := parse2_pad2 n hn
  simp only [pad4, pad2, List.cons_append, List.nil_append]
  rw [cdParseChars_shape, p4, pd, ph, pn]
  cases monthOfAbbrev [a, b, c] <;> rfl

theorem cdParse_dtChars (y mo d h n : Nat) (hy1 : 1 ≤ y) (hy2 : y ≤ 9999)
    (hm1 : 1 ≤ mo) (hm2 : mo ≤ 12) (hd1 : 1 ≤ d) (hd2 : d ≤ 31)
    (hh : h ≤ 23) (hn : n ≤ 59) :
    cdParseChars (dtChars ⟨y, mo, d, h, n⟩) = .ok ⟨y, mo, d, h, n⟩ := by
  obtain ⟨a, b, c, habc⟩ : ∃ a b c, monthAbbrev mo = [a, b, c] := by
    interval_cases mo <;> exact ⟨_, _, _, rfl⟩
  have hmo : monthOfAbbrev [a, b, c] = some mo := by
    rw [← habc]
    exact monthOfAbbrev_monthAbbrev mo (by omega) (by omega)
  unfold dtChars
  dsimp only
  rw [habc, cdParseChars_format y d h n a b c (by omega) (by omega) (by omega)
    (by omega), hmo]

theorem mapE_forall2 {α β : Type} (f : α → Except PyErr β) :
    ∀ (xs : List α) (ys : List β), mapE f xs = Except.ok ys →
      List.Forall₂ (fun x y => f x = Except.ok y) xs ys := by
  intro xs
  induction xs with
  | nil =>
    intro ys h
    simp only [mapE, Except.ok.injEq] at h
    subst h
    exact List.Forall₂.nil
  | cons x xs ih =>
    intro ys h
    unfold mapE at h
    cases hfx : f x with
    | error e => rw [hfx] at h; simp at h
    | ok y =>
      rw [hfx] at h
      cases hrest : mapE f xs with
      | error e => rw [hrest] at h; simp at h
      | ok ys2 =>
        rw [hrest] at h
        simp only [Except.ok.injEq] at h
        subst h
        exact List.Forall₂.cons hfx (ih ys2 hrest)

theorem forall2_mem_right {α β : Type} {R : α → β → Prop} :
    ∀ {xs : List α} {ys : List β}, List.Forall₂ R xs ys →
      ∀ y ∈ ys, ∃ x ∈ xs, R x y := by
  intro xs ys h
  induction h with
  | nil => intro y hy; simp at hy
  | cons hR _ ih =>
    intro y hy
    rcases List.mem_cons.mp hy with h1 | h2
    · exact ⟨_, List.mem_cons_self _ _, h1 ▸ hR⟩
    · obtain ⟨x, hx, hfx⟩ := ih y h2
      exact ⟨x, List.mem_cons_of_mem _ hx, hfx⟩

theorem mapE_pairs {α β : Type} (f : α → Except PyErr (α × β)) :
    ∀ xs : List α, (∀ x ∈ xs, ∃ y, f x = Except.ok (x, y)) →
      ∃ steps, mapE f xs = Except.ok steps ∧ steps.map Prod.fst = xs ∧
        steps.length = xs.length := by
  intro xs
  induction xs with
  | nil => exact fun _ => ⟨[], rfl, rfl, rfl⟩
  | cons x xs ih =>
    intro h
    obtain ⟨y, hy⟩ := h x (List.mem_cons_self x xs)
    obtain ⟨steps, hs, hfst, hlen⟩ := ih (fun z hz => h z (List.mem_cons_of_mem x hz))
    refine ⟨(x, y) :: steps, ?_, ?_, ?_⟩
    · unfold mapE
      rw [hy, hs]
    · simp [hfst]
    · simp [hlen]

theorem loadNeoRow_hazardous {row : NeoRow} {neo : NearEarthObject}
    (h : loadNeoRow row = Except.ok neo) : neo.hazardous = (row.pha == "Y") := by
  unfold loadNeoRow at h
  cases hdm : (if row.diameter == "" then some FloatVal.nan else pyFloat row.diameter) with
  | none => rw [hdm] at h; cases h
  | some f => rw [hdm] at h; cases h; rfl

theorem loadNeoRow_name {row : NeoRow} {neo : NearEarthObject}
    (h : loadNeoRow row = Except.ok neo) :
    neo.name = (if row.name == "" then none else some row.name) := by
  unfold loadNeoRow at h
  cases hdm : (if row.diameter == "" then some FloatVal.nan else pyFloat row.diameter) with
  | none => rw [hdm] at h; cases h
  | some f => rw [hdm] at h; cases h; rfl

theorem loadNeoRow_diameter {row : NeoRow} {neo : NearEarthObject}
    (h : loadNeoRow row = Except.ok neo) :
    ∃ f, neo.diameter = some f ∧
      (if row.diameter == "" then some FloatVal.nan else pyFloat row.diameter) =
        some f := by
  unfold loadNeoRow at h
  cases hdm : (if row.diameter == "" then some FloatVal.nan else pyFloat row.diameter) with
  | none => rw [hdm] at h; cases h
  | some f => rw [hdm] at h; cases h; exact ⟨f, rfl, rfl⟩

theorem csvRowOf_fst {ca : CloseApproach} {n : NearEarthObject}
    (hn : ca.neo = some n) :
    csvRowOf ca = Except.ok (ca,
      [datetime_to_str ca.time, pyFloatStr ca.distance, pyFloatStr ca.velocity,
       n.designation,
       (match n.name with
        | none => ""
        | some s => s),
       csvDiameterCell n.diameter,
       if n.hazardous then "True" else "False"]) := by
  unfold csvRowOf
  rw [hn]

theorem jsonRecOf_fst {ca : CloseApproach} {n : NearEarthObject}
    (hn : ca.neo = some n) :
    jsonRecOf ca = Except.ok (ca,
      ⟨datetime_to_str ca.time, ca.distance, ca.velocity,
       ⟨n.designation,
        (match n.name with
         | none => ""
         | some s => s),
        jsonDiameterVal n.diameter,
        if n.hazardous then false else true⟩⟩) := by
  unfold jsonRecOf
  rw [hn]

/-- Claim C1: for every data row ingested by load_neos, the resulting
NearEarthObject's hazardous attribute is true if and only if the row's raw
pha field equals the single marker character Y; every other raw value, the
empty string included, yields false. -/
theorem load_neos_hazardous_iff_marker (rows : List NeoRow)
    (out : List NearEarthObject) (h : load_neos rows = Except.ok out) :
    List.Forall₂ (fun row neo => neo.hazardous = true ↔ row.pha = "Y")
      rows out := by
  refine List.Forall₂.imp ?_ (mapE_forall2 loadNeoRow rows out h)
  intro row neo hok
  rw [loadNeoRow_hazardous hok]
  simp [beq_iff_eq]

/-- Witness for C1 at the marked example row. -/
theorem load_neos_hazardous_iff_marker_witness :
    List.Forall₂ (fun row neo => neo.hazardous = true ↔ row.pha = "Y")
      [markedRow] [NearEarthObject.mk "433" (some "Eros") (some .nan) true []] :=
  load_neos_hazardous_iff_marker [markedRow]
    [NearEarthObject.mk "433" (some "Eros") (some .nan) true []] rfl

/-- Claim C2: in every ingested row, a blank name yields an absent name
(None, not the empty string) and a blank diameter yields a diameter value
that is not equal to itself under float equality. -/
theorem load_neos_blank_name_diameter (rows : List NeoRow)
    (out : List NearEarthObject) (h : load_neos rows = Except.ok out) :
    List.Forall₂ (fun row neo =>
      (row.name = "" → neo.name = none) ∧
      (row.diameter = "" → ∃ f, neo.diameter = some f ∧ pyFloatEq f f = false))
      rows out := by
  refine List.Forall₂.imp ?_ (mapE_forall2 loadNeoRow rows out h)
  intro row neo hok
  constructor
  · intro hb
    rw [loadNeoRow_name hok]
    simp [hb]
  · intro hb
    obtain ⟨f, hf, hif⟩ := loadNeoRow_diameter hok
    rw [hb] at hif
    simp only [beq_self_eq_true, if_true, Option.some.injEq] at hif
    rw [← hif] at hf
    exact ⟨FloatVal.nan, hf, rfl⟩

/-- Witness for C2 at a row with blank name and diameter. -/
theorem load_neos_blank_name_diameter_witness :
    List.Forall₂ (fun row neo =>
      (row.name = "" → neo.name = none) ∧
      (row.diameter = "" → ∃ f, neo.diameter = some f ∧ pyFloatEq f f = false))
      [blankRow] [NearEarthObject.mk "2020 AB" none (some .nan) false []] :=
  load_neos_blank_name_diameter [blankRow]
    [NearEarthObject.mk "2020 AB" none (some .nan) false []] rfl

/-- Claim C3: formatting a valid minute-precision date-time with the compact
calendar rule (as CloseApproach.time_str and the serializers do) and
re-parsing the string with the calendar-parsing rule yields the same value. -/
theorem time_str_roundtrip (ca : CloseApproach)
    (hy1 : 1 ≤ ca.time.year) (hy2 : ca.time.year ≤ 9999)
    (hm1 : 1 ≤ ca.time.month) (hm2 : ca.time.month ≤ 12)
    (hd1 : 1 ≤ ca.time.day) (hd2 : ca.time.day ≤ 31)
    (hh : ca.time.hour ≤ 23) (hn : ca.time.minute ≤ 59) :
    cd_to_datetime ca.time_str = Except.ok ca.time := by
  obtain ⟨⟨y, mo, d, h, n⟩, dist, vel, des, neo⟩ := ca
  exact cdParse_dtChars y mo d h n hy1 hy2 hm1 hm2 hd1 hd2 hh hn

/-- Witness for C3 at the worked-example approach time. -/
theorem time_str_roundtrip_witness :
    cd_to_datetime (CloseApproach.time_str erosApproach) =
      Except.ok erosApproach.time :=
  time_str_roundtrip erosApproach (by decide) (by decide) (by decide) (by decide)
    (by decide) (by decide) (by decide) (by decide)

/-- Claim C4 (code defect): for the worked example, whose NEO is not
hazardous, write_to_json emits a neo sub-record whose potentially_hazardous
field is true — the structured serializer inverts the entity's hazardous
attribute instead of mirroring it as the tabular convention does. -/
theorem write_to_json_inverts_hazardous :
    erosNeo.hazardous = false ∧
    write_to_json [erosApproach] =
      Except.ok ([⟨"1900-Dec-27 01:30", .dec 924 4, .dec 557 2,
        ⟨"433", "Eros", .num (.dec 1684 2), true⟩⟩], [erosApproach]) :=
  ⟨rfl, rfl⟩

/-- Claim C5 (code defect): accessing fullname on a NEO with a non-absent
name raises AttributeError — the getter assigns to the read-only property —
instead of returning a string; the value the getter attempts to store joins
designation and name with an underscore, not by plain concatenation. -/
theorem fullname_raises_attribute_error :
    NearEarthObject.fullname erosNeo = Except.error PyErr.attributeError ∧
    fullnameValue erosNeo = Except.ok "433_Eros" :=
  ⟨rfl, rfl⟩

/-- Claim C6 counterexample: a data row one entry shorter than the field-name
list is not rejected — zip truncates silently and load_approaches returns an
entity built from the surviving fields. -/
theorem load_approaches_length_mismatch_accepted :
    load_approaches mismatchDoc =
      Except.ok [.mk ⟨1900, 12, 27, 1, 30⟩ (.dec 924 4) (.dec 557 2)
        (some "433") none] := rfl

/-- Claim C6 as amended: a missing field-name list fails with a key error
whatever the data rows hold; a row-length mismatch is not itself detected,
and an error arises only when the zip truncation drops a required field from
the reconstructed record, as when the cd column is lost. -/
theorem load_approaches_structural_errors :
    (∀ rows, load_approaches ⟨none, rows⟩ = Except.error PyErr.keyError) ∧
    load_approaches truncatedDoc = Except.error PyErr.keyError :=
  ⟨fun _ => rfl, rfl⟩

/-- Witness for the amended C6 at a concrete document. -/
theorem load_approaches_structural_errors_witness :
    load_approaches ⟨none, some []⟩ = Except.error PyErr.keyError :=
  load_approaches_structural_errors.1 (some [])

/-- Claim C7: write_to_csv first emits the fixed 7-column header and, for the
worked-example linked approach, exactly the expected data row. -/
theorem write_to_csv_header_and_example_row :
    write_to_csv [erosApproach] =
      Except.ok
        (["datetime_utc,distance_au,velocity_km_s,designation,name,diameter_km,potentially_hazardous",
          "1900-Dec-27 01:30,0.0924,5.57,433,Eros,16.84,False"],
         [erosApproach]) := rfl

/-- Claim C8: every ingested NEO's diameter is a float value, never absent,
so for any approach linked to an ingested object the serializers take the
float branches: the csv cell is the printed float (not the empty-string
branch) and the json entry is the numeric value (not the string 'NaN'). -/
theorem load_neos_diameter_present (rows : List NeoRow)
    (out : List NearEarthObject) (h : load_neos rows = Except.ok out) :
    ∀ neo ∈ out, ∃ f, neo.diameter = some f ∧
      (∀ ca : CloseApproach, ca.neo = some neo →
        csvDiameterCell neo.diameter = pyFloatStr f ∧
        jsonDiameterVal neo.diameter = JVal.num f) := by
  intro neo hmem
  obtain ⟨row, _, hok⟩ :=
    forall2_mem_right (mapE_forall2 loadNeoRow rows out h) neo hmem
  obtain ⟨f, hf, _⟩ := loadNeoRow_diameter hok
  refine ⟨f, hf, fun ca _ => ?_⟩
  rw [hf]
  exact ⟨rfl, rfl⟩

/-- Witness for C8 at the worked-example row. -/
theorem load_neos_diameter_present_witness :
    ∃ f, erosNeo.diameter = some f ∧
      (∀ ca : CloseApproach, ca.neo = some erosNeo →
        csvDiameterCell erosNeo.diameter = pyFloatStr f ∧
        jsonDiameterVal erosNeo.diameter = JVal.num f) :=
  load_neos_diameter_present [erosRow] [erosNeo] rfl erosNeo
    (List.mem_cons_self erosNeo [])

/-- Claim C9: on a sequence of linked approaches, each serializer makes a
single pass that emits exactly one row or record per approach, in order, and
hands every entity back exactly as it was — no attribute of any approach or
linked NEO is changed. -/
theorem writers_single_pass_no_mutation (results : List CloseApproach)
    (h : ∀ ca ∈ results, ca.neo.isSome = true) :
    (∃ lines, write_to_csv results = Except.ok (lines, results) ∧
      lines.length = results.length + 1) ∧
    (∃ recs, write_to_json results = Except.ok (recs, results) ∧
      recs.length = results.length) := by
  have hcsv : ∀ ca ∈ results, ∃ y, csvRowOf ca = Except.ok (ca, y) := by
    intro ca hca
    obtain ⟨n, hn⟩ := Option.isSome_iff_exists.mp (h ca hca)
    exact ⟨_, csvRowOf_fst hn⟩
  have hjson : ∀ ca ∈ results, ∃ y, jsonRecOf ca = Except.ok (ca, y) := by
    intro ca hca
    obtain ⟨n, hn⟩ := Option.isSome_iff_exists.mp (h ca hca)
    exact ⟨_, jsonRecOf_fst hn⟩
  obtain ⟨s1, hs1, hf1, hl1⟩ := mapE_pairs csvRowOf results hcsv
  obtain ⟨s2, hs2, hf2, hl2⟩ := mapE_pairs jsonRecOf results hjson
  constructor
  · refine ⟨csvLine fieldnames :: s1.map (fun p => csvLine p.2), ?_, ?_⟩
    · unfold write_to_csv
      rw [hs1]
      dsimp only
      rw [hf1]
    · simp [hl1]
  · refine ⟨s2.map (fun p => p.2), ?_, ?_⟩
    · unfold write_to_json
      rw [hs2]
      dsimp only
      rw [hf2]
    · simp [hl2]

/-- Witness for C9 at the worked-example approach. -/
theorem writers_single_pass_no_mutation_witness :
    (∃ lines, write_to_csv [erosApproach] = Except.ok (lines, [erosApproach]) ∧
      lines.length = [erosApproach].length + 1) ∧
    (∃ recs, write_to_json [erosApproach] = Except.ok (recs, [erosApproach]) ∧
      recs.length = [erosApproach].length) :=
  writers_single_pass_no_mutation [erosApproach] (by
    intro ca hca
    rw [List.mem_singleton] at hca
    subst hca
    rfl)

/-- Claim C10: a non-empty diameter field that is not parseable as a number
makes load_neos raise ValueError instead of producing an object, and every
object that is returned carries float(raw) as its diameter whenever the raw
field is non-empty. -/
theorem load_neos_unparseable_diameter :
    load_neos [badDiamRow] = Except.error PyErr.valueError ∧
    ∀ (rows : List NeoRow) (out : List NearEarthObject),
      load_neos rows = Except.ok out →
      List.Forall₂ (fun row neo => row.diameter ≠ "" →
        ∃ f, pyFloat row.diameter = some f ∧ neo.diameter = some f) rows out := by
  refine ⟨rfl, ?_⟩
  intro rows out h
  refine List.Forall₂.imp ?_ (mapE_forall2 loadNeoRow rows out h)
  intro row neo hok hne
  obtain ⟨f, hf, hif⟩ := loadNeoRow_diameter hok
  rw [if_neg] at hif
  · exact ⟨f, hif, hf⟩
  · simp [hne]

/-- Witness for C10 at the worked-example row with diameter 16.84. -/
theorem load_neos_unparseable_diameter_witness :
    List.Forall₂ (fun row neo => row.diameter ≠ "" →
      ∃ f, pyFloat row.diameter = some f ∧ neo.diameter = some f)
      [erosRow] [erosNeo] :=
  load_neos_unparseable_diameter.2 [erosRow] [erosNeo] rfl

example : pyFloat "0.0924" = some (.dec 924 4) := by decide
example : pyFloat "5.57" = some (.dec 557 2) := by decide
example : pyFloat "16.84" = some (.dec 1684 2) := by decide
example : pyFloat "not a number" = none := by decide
example : pyFloat "nan" = some .nan := by decide
example : pyFloat "1e3" = some (.dec 1000 0) := by decide
example : pyFloatStr (.dec 924 4) = "0.0924" := by decide
example : pyFloatStr (.dec 1684 2) = "16.84" := by decide
example : pyFloatStr (.dec 160 1) = "16.0" := by decide
example : pyFloatStr .nan = "nan" := by decide
example : pyFloatEq .nan .nan = false := by decide
example : cd_to_datetime "1900-Dec-27 01:30" = .ok ⟨1900, 12, 27, 1, 30⟩ := rfl
example : cd_to_datetime "1900-Dec-27 01:30:45" = .ok ⟨1900, 12, 27, 1, 30⟩ := rfl
example : datetime_to_str ⟨1900, 12, 27, 1, 30⟩ = "1900-Dec-27 01:30" := by decide
example : cd_to_datetime "garbage" = .error .valueError := rfl

example :
    load_approaches ⟨some ["des", "cd", "dist", "v_rel", "h"],
                     some [["433", "1900-Dec-27 01:30", "0.0924", "5.57"]]⟩ =
      .ok [.mk ⟨1900, 12, 27, 1, 30⟩ (.dec 924 4) (.dec 557 2) (some "433") none] := rfl

example :
    load_neos [⟨"433", "Eros", "16.84", "N"⟩] =
      .ok [.mk "433" (some "Eros") (some (.dec 1684 2)) false []] := rfl

example :
    load_neos [⟨"2020 AB", "", "", ""⟩] =
      .ok [.mk "2020 AB" none (some .nan) false []] := rfl
